import Mathlib

/-!
Shallow embedding of the `cci_logger` C++ library (src/cci_logger.hh,
src/cci_logger.cc): severity levels, the time-format mini-language,
message formatting, the severity gate, stream selection and the
error-escalation prompt, together with theorems checking the
natural-language specification against this embedding.

Streams (`std::cerr`, `std::clog`) and standard input are modelled
explicitly: a `LogState` carries the bytes written so far to each stream,
whether standard input is an interactive terminal, and the list of input
lines still unread.
-/

/-- `enum LogLevel : uint8_t { DEBUG, INFO, WARN, ERROR }` from
src/cci_logger.hh.  The ordinal values 0..3 are those of the C++ enum. -/
inductive LogLevel : Type
  | DEBUG
  | INFO
  | WARN
  | ERROR
deriving DecidableEq, Repr

/-- The underlying `uint8_t` ordinal of a `LogLevel`. -/
def LogLevel.toNat : LogLevel → Nat
  | .DEBUG => 0
  | .INFO => 1
  | .WARN => 2
  | .ERROR => 3

/-- A fixed wall-clock time value, standing for the `tm` structure plus the
millisecond remainder that `format_time` reads (src/cci_logger.cc:26-30).
All fields are plain naturals; `ms` is `duration % 1000`. -/
structure TimeVal : Type where
  hour : Nat
  min : Nat
  sec : Nat
  ms : Nat
  year : Nat
  month : Nat
  day : Nat
deriving DecidableEq, Repr

/-- `out << std::setw(w) << std::setfill('0') << n`: decimal rendering of
`n`, left-padded with zeros to at least `w` characters. -/
def padZero (w : Nat) (n : Nat) : String :=
  let s := toString n
  if s.length < w then String.mk (List.replicate (w - s.length) '0') ++ s
  else s

/-- `std::put_time(&tm, "%Y-%m-%d")` (src/cci_logger.cc:49): the calendar
date; month and day zero-padded to two digits as strftime specifies. -/
def dateStr (t : TimeVal) : String :=
  toString t.year ++ "-" ++ padZero 2 t.month ++ "-" ++ padZero 2 t.day

/-- The scanning loop of `format_time` (src/cci_logger.cc:34-59) on the
remaining characters of the format.  Token tests mirror the source's
`substr` comparisons in order: `%MS`, then `%S`, `%M`, `%H`, `%D`; a `%`
that matches none of them (or a trailing lone `%`) is copied literally and
one character is consumed, as in the source's final `else` branches. -/
def formatTimeAux (t : TimeVal) : List Char → String
  | [] => ""
  | '%' :: 'M' :: 'S' :: rest => padZero 3 t.ms ++ formatTimeAux t rest
  | '%' :: 'S' :: rest => padZero 2 t.sec ++ formatTimeAux t rest
  | '%' :: 'M' :: rest => padZero 2 t.min ++ formatTimeAux t rest
  | '%' :: 'H' :: rest => padZero 2 t.hour ++ formatTimeAux t rest
  | '%' :: 'D' :: rest => dateStr t ++ formatTimeAux t rest
  | '%' :: c :: rest => "%" ++ formatTimeAux t (c :: rest)
  | c :: rest => String.singleton c ++ formatTimeAux t rest

/-- `format_time` from src/cci_logger.cc:21-62, with the wall-clock time
injected as a parameter. -/
def format_time (t : TimeVal) (p_fmt : String) : String :=
  formatTimeAux t p_fmt.data

/-- One iteration of the `format_time` scanning loop: the output this
iteration appends and the remaining format after its `remove_prefix`
calls (src/cci_logger.cc:34-59).  Called only when the format is nonempty;
the `[]` case is the loop guard and never reached. -/
def formatTimeStep (t : TimeVal) : List Char → String × List Char
  | [] => ("", [])
  | '%' :: 'M' :: 'S' :: rest => (padZero 3 t.ms, rest)
  | '%' :: 'S' :: rest => (padZero 2 t.sec, rest)
  | '%' :: 'M' :: rest => (padZero 2 t.min, rest)
  | '%' :: 'H' :: rest => (padZero 2 t.hour, rest)
  | '%' :: 'D' :: rest => (dateStr t, rest)
  | '%' :: c :: rest => ("%", c :: rest)
  | c :: rest => (String.singleton c, rest)


/-- Errors thrown by `std::vformat` / `std::format_error`; the spec calls
this class of failures `MessageFormatError`. -/
inductive MessageFormatError : Type
  | badIndex
  | badSpec
deriving DecidableEq, Repr

/-- Models `std::vformat` (a standard-library collaborator of the logger,
not repository code): scans the format, substitutes `\x7bn\x7d` with the
`n`-th argument (single decimal digit, as every template in this library
uses), `\x7b\x7d` with the next argument of an automatic counter, doubles
`\x7b\x7b` and `\x7d\x7d` to literal braces, and fails with a
`MessageFormatError` on an out-of-range argument index or a malformed
replacement field, as `std::format_error` specifies.  All arguments are
already rendered to strings. -/
def vformatAux (args : List String) : List Char → Nat → Except MessageFormatError String
  | [], _ => .ok ""
  | '{' :: '{' :: rest, k => (fun s => "\x7b" ++ s) <$> vformatAux args rest k
  | '}' :: '}' :: rest, k => (fun s => "\x7d" ++ s) <$> vformatAux args rest k
  | '{' :: '}' :: rest, k =>
      match args.get? k with
      | some a => (fun s => a ++ s) <$> vformatAux args rest (k + 1)
      | none => .error .badIndex
  | '{' :: c :: '}' :: rest, k =>
      if c.isDigit then
        match args.get? (c.toNat - 48) with
        | some a => (fun s => a ++ s) <$> vformatAux args rest k
        | none => .error .badIndex
      else .error .badSpec
  | '{' :: _, _ => .error .badSpec
  | '}' :: _, _ => .error .badSpec
  | c :: rest, k => (fun s => String.singleton c ++ s) <$> vformatAux args rest k

/-- `std::vformat(fmt, make_format_args(args...))` on pre-rendered string
arguments. -/
def vformat (p_fmt : String) (args : List String) : Except MessageFormatError String :=
  vformatAux args p_fmt.data 0


/-- `std::source_location` data read by `Logger::log`
(src/cci_logger.hh:108-110). -/
structure source_location : Type where
  file_name : String
  function_name : String
  line : Nat
deriving DecidableEq, Repr

/-- The function-name trimming performed inline in `Logger::log`
(src/cci_logger.hh:115-116):
`function = function.substr(function.find_first_of(' ') + 1)` — when no
space exists `find_first_of` yields `npos` and `npos + 1` wraps to `0`, so
the whole string is kept — followed by
`function = function.substr(0, function.find('('))`. -/
def extract_function (s : String) : String :=
  let cs := s.data
  let afterSpace :=
    match cs.findIdx? (fun c => c = ' ') with
    | some i => cs.drop (i + 1)
    | none => cs
  String.mk (afterSpace.takeWhile (fun c => c ≠ '('))


/-- `m_LOG_LABELS` (src/cci_logger.hh:134-139): per-severity
(coloured, plain) label pair. -/
def m_LOG_LABELS : LogLevel → String × String
  | .DEBUG => ("\x1b[1;36mdebug\x1b[0;0;0m", "debug")
  | .INFO => ("\x1b[1;32minfo\x1b[0;0;0m", "info")
  | .WARN => ("\x1b[1;33mwarn\x1b[0;0;0m", "warn")
  | .ERROR => ("\x1b[1;31merror\x1b[0;0;0m", "error")

/-- `m_LOG_FORMATS` (src/cci_logger.hh:140-144): the built-in
(coloured, plain) final-line templates. -/
def m_LOG_FORMATS : String × String :=
  ("[{0} {1} at \x1b[1m{2}\x1b[0m( \x1b[1;30m{3}:{4}\x1b[0;0m )]: \x1b[1m{5}\x1b[0m\n",
   "[{0} {1} at {2}( {3}:{4} )]: {5}\n")

/-- The `Logger` configuration fields (src/cci_logger.hh:147-154). -/
structure Logger : Type where
  m_threshold_level : LogLevel
  m_time_format : String
  m_log_format : String
  m_coloured : Bool
  m_ask_continue : Bool
  m_abort_on_err : Bool
deriving DecidableEq, Repr

/-- The constructor `Logger::Logger(const LogLevel &)`
(src/cci_logger.cc:66-72). -/
def Logger.make (p_loglevel : LogLevel) : Logger :=
  { m_threshold_level := p_loglevel
    m_time_format := "%M:%S.%MS"
    m_log_format := ""
    m_coloured := true
    m_ask_continue := true
    m_abort_on_err := true }

/-- `Logger::set_time_format(const std::string &)` (src/cci_logger.cc:75-77). -/
def Logger.set_time_format (l : Logger) (p_fmt : String) : Logger :=
  { l with m_time_format := p_fmt }

/-- Calling `set_time_format()` with no argument: the declaration's default
argument is `"%MS.%S:%M"` (src/cci_logger.hh:48). -/
def Logger.set_time_format_default (l : Logger) : Logger :=
  l.set_time_format "%MS.%S:%M"

/-- `Logger::set_log_format(const std::string &)` (src/cci_logger.cc:80-82). -/
def Logger.set_log_format (l : Logger) (p_fmt : String) : Logger :=
  { l with m_log_format := p_fmt }

/-- `Logger::set_log_format(void)` (src/cci_logger.cc:85-87): clears the
final-line template. -/
def Logger.set_log_format_clear (l : Logger) : Logger :=
  { l with m_log_format := "" }

/-- `Logger::abort_on_error` (src/cci_logger.cc:90-92). -/
def Logger.abort_on_error (l : Logger) (p_abort : Bool) : Logger :=
  { l with m_abort_on_err := p_abort }

/-- `Logger::ask_continue_on_error` (src/cci_logger.cc:95-97). -/
def Logger.ask_continue_on_error (l : Logger) (p_ask : Bool) : Logger :=
  { l with m_ask_continue := p_ask }

/-- `Logger::set_coloured_log` (src/cci_logger.cc:100-102). -/
def Logger.set_coloured_log (l : Logger) (p_coloured : Bool) : Logger :=
  { l with m_coloured := p_coloured }

/-- The process's I/O environment as the logger observes it: bytes written
so far to `std::cerr` and to `std::clog`, whether `isatty(fileno(stdin))`
holds, and the lines still unread on standard input. -/
structure LogState : Type where
  cerr : String
  clog : String
  stdinTty : Bool
  stdinLines : List String
deriving DecidableEq, Repr

/-- The prompt `Logger::ask_continue` writes to `std::cerr` each iteration
(src/cci_logger.cc:119). -/
def promptMsg : String := "An error has occured, do you want to continue? [y/N] "

/-- The guidance `Logger::ask_continue` writes on unrecognised input
(src/cci_logger.cc:128). -/
def guidanceMsg : String := "Please enter y or n.\n"

/-- The `while (true)` loop of `Logger::ask_continue`
(src/cci_logger.cc:118-129) over the remaining standard-input lines.
Returns the answer, the input lines left unread, and the bytes the loop
wrote to `std::cerr`.  At end of input, `std::getline` fails and leaves
`line` empty, so the `line.empty()` test returns `false` after one more
prompt — the `[]` case. -/
def askContinueLoop : List String → Bool × List String × String
  | [] => (false, [], promptMsg)
  | line :: rest =>
    if line = "" then (false, rest, promptMsg)
    else
      let answ := Char.toLower line.front
      if answ = 'y' then (true, rest, promptMsg)
      else if answ = 'n' then (false, rest, promptMsg)
      else
        let r := askContinueLoop rest
        (r.1, r.2.1, promptMsg ++ guidanceMsg ++ r.2.2)

/-- `Logger::ask_continue` (src/cci_logger.cc:112-130):
`if (!is_stdin_available()) return false;` then the prompt loop.  Returns
the answer, the unread input lines, and the bytes written to `std::cerr`. -/
def Logger.ask_continue (tty : Bool) (lines : List String) : Bool × List String × String :=
  if tty then askContinueLoop lines else (false, lines, "")

/-- `Logger::print_log` (src/cci_logger.cc:133-135):
`(p_err ? std::cerr : std::clog) << p_msg`. -/
def print_log (st : LogState) (p_msg : String) (p_err : Bool) : LogState :=
  if p_err then { st with cerr := st.cerr ++ p_msg }
  else { st with clog := st.clog ++ p_msg }

/-- How a `log` call ends, as the caller observes it. -/
inductive LogOutcome : Type
  | gated
  | completed
  | aborted
  | formatError
deriving DecidableEq, Repr

/-- The `log_level` string chosen in `Logger::log`
(src/cci_logger.hh:111-112): the coloured or plain label per
`m_coloured`. -/
def logLabel (l : Logger) (T_Level : LogLevel) : String :=
  if l.m_coloured then (m_LOG_LABELS T_Level).1 else (m_LOG_LABELS T_Level).2

/-- The `log_format` variable of `Logger::log` (src/cci_logger.hh:118-121):
the configured final-line template, or the built-in default for the
current colour setting when `m_log_format` is empty. -/
def chosenLogFormat (l : Logger) : String :=
  if l.m_log_format = "" then
    (if l.m_coloured then m_LOG_FORMATS.1 else m_LOG_FORMATS.2)
  else l.m_log_format

/-- The six fields `time, log_level, function, file, line, msg` passed to
the outer `format` call in `Logger::log` (src/cci_logger.hh:122-123). -/
def logFields (l : Logger) (T_Level : LogLevel) (src : source_location)
    (t : TimeVal) (msg : String) : List String :=
  [format_time t l.m_time_format, logLabel l T_Level,
   extract_function src.function_name, src.file_name,
   toString src.line, msg]

/-- `Logger::log<T_Level>` (src/cci_logger.hh:100-129), with the wall-clock
time injected and the user's format arguments pre-rendered to strings.
Step for step: the severity gate; `get_time()` = `format_time` on the
configured time format; source-location fields; label selection by
`m_coloured`; the nested `std::vformat` of the user message (a thrown
`std::format_error` propagates before anything is printed); the
function-name trimming; the final template (configured, or the built-in
pair when `m_log_format` is empty); the outer `std::vformat`; `print_log`
with `T_Level >= WARN`; and, for `ERROR` with `m_abort_on_err`, the
`ask_continue()` prompt with `std::abort()` on a `false` answer.  The
returned `Logger` is the receiver, whose fields `log` only reads. -/
def Logger.log (T_Level : LogLevel) (l : Logger) (p_fmt : String)
    (p_args : List String) (src : source_location) (t : TimeVal)
    (st : LogState) : LogOutcome × Logger × LogState :=
  if T_Level.toNat < l.m_threshold_level.toNat then (.gated, l, st)
  else
    match vformat p_fmt p_args with
    | .error _ => (.formatError, l, st)
    | .ok msg =>
      match vformat (chosenLogFormat l) (logFields l T_Level src t msg) with
      | .error _ => (.formatError, l, st)
      | .ok full =>
        let st1 := print_log st full (decide (LogLevel.WARN.toNat ≤ T_Level.toNat))
        if T_Level = .ERROR ∧ l.m_abort_on_err then
          let r := Logger.ask_continue st1.stdinTty st1.stdinLines
          let st2 := { st1 with stdinLines := r.2.1, cerr := st1.cerr ++ r.2.2 }
          if r.1 then (.completed, l, st2) else (.aborted, l, st2)
        else (.completed, l, st1)


/-! Helper lemmas about the time-format scanner. -/

theorem ftAux_M (t : TimeVal) (c : Char) (cs : List Char) (h : c ≠ 'S') :
    formatTimeAux t ('%' :: 'M' :: c :: cs) = padZero 2 t.min ++ formatTimeAux t (c :: cs) := by
  simp [formatTimeAux, h]

theorem ftAux_other (t : TimeVal) (c : Char) (cs : List Char)
    (hM : c ≠ 'M') (hS : c ≠ 'S') (hH : c ≠ 'H') (hD : c ≠ 'D') :
    formatTimeAux t ('%' :: c :: cs) = "%" ++ formatTimeAux t (c :: cs) := by
  simp [formatTimeAux, hM, hS, hH, hD]

theorem ftAux_lit (t : TimeVal) (c : Char) (cs : List Char) (h : c ≠ '%') :
    formatTimeAux t (c :: cs) = String.singleton c ++ formatTimeAux t cs := by
  simp [formatTimeAux, h]

/-! Helper lemmas about the function-name trimming. -/

theorem findIdx_space_none (a : List Char) (h : ' ' ∉ a) :
    a.findIdx? (fun c => c = ' ') = none := by
  induction a with
  | nil => rfl
  | cons x xs ih =>
    have hx : ¬(x = ' ') := fun e => h (e ▸ List.mem_cons_self x xs)
    have hxs : ' ' ∉ xs := fun m => h (List.mem_cons_of_mem x m)
    simp [List.findIdx?_cons, hx, ih hxs]

theorem findIdx_space_append (a b : List Char) (h : ' ' ∉ a) :
    (a ++ ' ' :: b).findIdx? (fun c => c = ' ') = some a.length := by
  induction a with
  | nil => simp [List.findIdx?_cons]
  | cons x xs ih =>
    have hx : ¬(x = ' ') := fun e => h (e ▸ List.mem_cons_self x xs)
    have hxs : ' ' ∉ xs := fun m => h (List.mem_cons_of_mem x m)
    simp [List.findIdx?_cons, hx, ih hxs]

theorem drop_len_succ (a b : List Char) :
    (a ++ ' ' :: b).drop (a.length + 1) = b := by
  have he : a ++ ' ' :: b = (a ++ [' ']) ++ b := by simp
  rw [he]
  have hl : a.length + 1 = (a ++ [' ']).length := by simp
  rw [hl, List.drop_left]

/-! Helper lemmas about `Logger.log`. -/

theorem chosenLogFormat_mk (tl : LogLevel) (tf lf : String) (co ac ab : Bool) :
    chosenLogFormat (Logger.mk tl tf lf co ac ab)
      = if lf = "" then (if co then m_LOG_FORMATS.1 else m_LOG_FORMATS.2) else lf := rfl

theorem logFields_mk (tl : LogLevel) (tf lf : String) (co ac ab : Bool)
    (T_Level : LogLevel) (src : source_location) (t : TimeVal) (msg : String) :
    logFields (Logger.mk tl tf lf co ac ab) T_Level src t msg
      = [format_time t tf, (if co then (m_LOG_LABELS T_Level).1 else (m_LOG_LABELS T_Level).2),
         extract_function src.function_name, src.file_name, toString src.line, msg] := rfl

theorem print_log_stdinTty (st : LogState) (m : String) (e : Bool) :
    (print_log st m e).stdinTty = st.stdinTty := by
  unfold print_log; split <;> rfl

theorem print_log_stdinLines (st : LogState) (m : String) (e : Bool) :
    (print_log st m e).stdinLines = st.stdinLines := by
  unfold print_log; split <;> rfl

theorem ERROR_not_gated (lv : LogLevel) : ¬(LogLevel.ERROR.toNat < lv.toNat) := by
  cases lv <;> decide

/-- C1: a log call whose severity is strictly below the configured
threshold (under the ordinal order DEBUG < INFO < WARN < ERROR) writes
nothing to either stream, never enters the escalation prompt, and leaves
the logger's configuration unchanged — the returned outcome is `gated`,
the logger is returned as it was, and the whole I/O state (both streams,
the terminal flag and the unread input lines) is returned untouched. -/
theorem C1_severity_gate_no_effect (T_Level : LogLevel) (l : Logger) (p_fmt : String)
    (p_args : List String) (src : source_location) (t : TimeVal) (st : LogState)
    (h : T_Level.toNat < l.m_threshold_level.toNat) :
    Logger.log T_Level l p_fmt p_args src t st = (.gated, l, st) := by
  simp [Logger.log, h]

/-- Witness for C1: with threshold `WARN`, a `DEBUG` log call has no
effect at all. -/
theorem C1_severity_gate_no_effect_witness :
    Logger.log .DEBUG (Logger.make .WARN) "x" [] ⟨"a.cc", "int main()", 1⟩
      ⟨0, 0, 0, 0, 0, 0, 0⟩ ⟨"", "", false, []⟩
      = (.gated, Logger.make .WARN, ⟨"", "", false, []⟩) :=
  C1_severity_gate_no_effect .DEBUG (Logger.make .WARN) "x" []
    ⟨"a.cc", "int main()", 1⟩ ⟨0, 0, 0, 0, 0, 0, 0⟩ ⟨"", "", false, []⟩ (by decide)

/-- C2: the time renderer scans left to right matching tokens
longest-prefix-first: `%MS` renders milliseconds zero-padded to 3 digits,
`%S` seconds to 2, `%M` minutes to 2 (only when not part of `%MS`),
`%H` hours to 2, `%D` the calendar date; any other character — including
an unmatched `%` and a trailing lone `%` — is copied literally; the empty
format renders to the empty string and rendering always returns a string.
Rendering `"%H:%M:%S.%MS"` at time 13:05:09.042 yields `"13:05:09.042"`
and rendering `"literal"` yields `"literal"`. -/
theorem C2_format_time_tokens :
    (∀ t : TimeVal, format_time t "" = "") ∧
    (∀ (t : TimeVal) (r : String),
      format_time t ("%MS" ++ r) = padZero 3 t.ms ++ format_time t r) ∧
    (∀ (t : TimeVal) (r : String),
      format_time t ("%S" ++ r) = padZero 2 t.sec ++ format_time t r) ∧
    (∀ (t : TimeVal) (r : String), r.data.head? ≠ some 'S' →
      format_time t ("%M" ++ r) = padZero 2 t.min ++ format_time t r) ∧
    (∀ (t : TimeVal) (r : String),
      format_time t ("%H" ++ r) = padZero 2 t.hour ++ format_time t r) ∧
    (∀ (t : TimeVal) (r : String),
      format_time t ("%D" ++ r) = dateStr t ++ format_time t r) ∧
    (∀ (t : TimeVal) (c : Char) (r : String), c ≠ '%' →
      format_time t (String.singleton c ++ r) = String.singleton c ++ format_time t r) ∧
    (∀ (t : TimeVal) (c : Char) (r : String), c ≠ 'M' → c ≠ 'S' → c ≠ 'H' → c ≠ 'D' →
      format_time t ("%" ++ String.singleton c ++ r)
        = "%" ++ format_time t (String.singleton c ++ r)) ∧
    (∀ t : TimeVal, format_time t "%" = "%") ∧
    (format_time ⟨13, 5, 9, 42, 2024, 1, 2⟩ "%H:%M:%S.%MS" = "13:05:09.042") ∧
    (∀ t : TimeVal, format_time t "literal" = "literal") := by
  refine ⟨fun t => rfl, fun t r => rfl, fun t r => rfl, ?_, fun t r => rfl, fun t r => rfl,
    ?_, ?_, fun t => rfl, by decide, fun t => rfl⟩
  · intro t r h
    obtain ⟨cs⟩ := r
    cases cs with
    | nil => simp [format_time, formatTimeAux, String.data_append]
    | cons c cs =>
      have hc : c ≠ 'S' := by simpa using h
      simp [format_time, String.data_append, ftAux_M t c cs hc]
  · intro t c r h
    obtain ⟨cs⟩ := r
    simp [format_time, String.data_append, String.singleton, ftAux_lit t c cs h]
  · intro t c r hM hS hH hD
    obtain ⟨cs⟩ := r
    simp [format_time, String.data_append, String.singleton,
      ftAux_other t c cs hM hS hH hD, ftAux_lit]

/-- Witness for C2: the conditional token equations at concrete inputs —
`%M` not followed by `S` renders the minutes, an ordinary character is
copied, and `%x` copies the `%` literally. -/
theorem C2_format_time_tokens_witness :
    (format_time ⟨13, 5, 9, 42, 2024, 1, 2⟩ ("%M" ++ ":x")
      = padZero 2 5 ++ format_time ⟨13, 5, 9, 42, 2024, 1, 2⟩ ":x") ∧
    (format_time ⟨13, 5, 9, 42, 2024, 1, 2⟩ (String.singleton 'a' ++ "bc")
      = String.singleton 'a' ++ format_time ⟨13, 5, 9, 42, 2024, 1, 2⟩ "bc") ∧
    (format_time ⟨13, 5, 9, 42, 2024, 1, 2⟩ ("%" ++ String.singleton 'x' ++ "q")
      = "%" ++ format_time ⟨13, 5, 9, 42, 2024, 1, 2⟩ (String.singleton 'x' ++ "q")) :=
  ⟨C2_format_time_tokens.2.2.2.1 ⟨13, 5, 9, 42, 2024, 1, 2⟩ ":x" (by decide),
   C2_format_time_tokens.2.2.2.2.2.2.1 ⟨13, 5, 9, 42, 2024, 1, 2⟩ 'a' "bc" (by decide),
   C2_format_time_tokens.2.2.2.2.2.2.2.1 ⟨13, 5, 9, 42, 2024, 1, 2⟩ 'x' "q"
     (by decide) (by decide) (by decide) (by decide)⟩

/-- C10: the time-format scanner terminates on every input: each loop
iteration consumes at least one and at most three of the remaining
characters, and the rendering of a nonempty remainder is the iteration's
output followed by the rendering of the strictly shorter rest — so
`format_time` is total on arbitrary format strings. -/
theorem C10_scanner_terminates (t : TimeVal) (cs : List Char) (h : cs ≠ []) :
    (formatTimeStep t cs).2.length < cs.length ∧
    cs.length ≤ (formatTimeStep t cs).2.length + 3 ∧
    formatTimeAux t cs = (formatTimeStep t cs).1 ++ formatTimeAux t (formatTimeStep t cs).2 := by
  unfold formatTimeStep
  split
  · exact absurd rfl h
  all_goals simp_arith [formatTimeAux]

/-- Witness for C10: one scanner iteration on `"%MS"` consumes all three
characters. -/
theorem C10_scanner_terminates_witness :
    (formatTimeStep ⟨0, 0, 0, 7, 0, 0, 0⟩ "%MS".data).2.length < "%MS".data.length ∧
    "%MS".data.length ≤ (formatTimeStep ⟨0, 0, 0, 7, 0, 0, 0⟩ "%MS".data).2.length + 3 ∧
    formatTimeAux ⟨0, 0, 0, 7, 0, 0, 0⟩ "%MS".data
      = (formatTimeStep ⟨0, 0, 0, 7, 0, 0, 0⟩ "%MS".data).1
        ++ formatTimeAux ⟨0, 0, 0, 7, 0, 0, 0⟩ (formatTimeStep ⟨0, 0, 0, 7, 0, 0, 0⟩ "%MS".data).2 :=
  C10_scanner_terminates ⟨0, 0, 0, 7, 0, 0, 0⟩ "%MS".data (by decide)

/-- C3: an ERROR-severity log call with abort-on-error enabled consults
the escalation prompt, and whenever the prompt answers `false` the call
ends in `aborted` (the modelled `std::abort()`), with the prompt's bytes
on the error stream and its reads consumed from standard input; with
abort-on-error disabled the ERROR call completes normally, writing only
the log line; and a call at any severity other than ERROR never aborts
and never touches standard input. -/
theorem C3_error_escalation :
    (∀ (l : Logger) (p_fmt : String) (p_args : List String) (src : source_location)
       (t : TimeVal) (st : LogState) (msg full : String),
      l.m_abort_on_err = true →
      vformat p_fmt p_args = .ok msg →
      vformat (chosenLogFormat l) (logFields l .ERROR src t msg) = .ok full →
      (Logger.ask_continue st.stdinTty st.stdinLines).1 = false →
      Logger.log .ERROR l p_fmt p_args src t st =
        (.aborted, l,
         { cerr := st.cerr ++ full ++ (Logger.ask_continue st.stdinTty st.stdinLines).2.2,
           clog := st.clog,
           stdinTty := st.stdinTty,
           stdinLines := (Logger.ask_continue st.stdinTty st.stdinLines).2.1 })) ∧
    (∀ (l : Logger) (p_fmt : String) (p_args : List String) (src : source_location)
       (t : TimeVal) (st : LogState) (msg full : String),
      l.m_abort_on_err = false →
      vformat p_fmt p_args = .ok msg →
      vformat (chosenLogFormat l) (logFields l .ERROR src t msg) = .ok full →
      Logger.log .ERROR l p_fmt p_args src t st =
        (.completed, l, { st with cerr := st.cerr ++ full })) ∧
    (∀ (T_Level : LogLevel) (l : Logger) (p_fmt : String) (p_args : List String)
       (src : source_location) (t : TimeVal) (st : LogState),
      T_Level ≠ .ERROR →
      (Logger.log T_Level l p_fmt p_args src t st).1 ≠ .aborted ∧
      (Logger.log T_Level l p_fmt p_args src t st).2.2.stdinTty = st.stdinTty ∧
      (Logger.log T_Level l p_fmt p_args src t st).2.2.stdinLines = st.stdinLines) := by
  refine ⟨?_, ?_, ?_⟩
  · intro l p_fmt p_args src t st msg full hab h1 h2 hask
    obtain ⟨tl, tf, lf, co, ac, ab⟩ := l
    simp only [chosenLogFormat_mk, logFields_mk] at h2
    simp only at hab
    subst hab
    simp [Logger.log, chosenLogFormat_mk, logFields_mk, ERROR_not_gated, h1, h2, hask,
      print_log, print_log_stdinTty, print_log_stdinLines, String.append_assoc,
      LogLevel.toNat]
    cases tl <;> decide
  · intro l p_fmt p_args src t st msg full hab h1 h2
    obtain ⟨tl, tf, lf, co, ac, ab⟩ := l
    simp only [chosenLogFormat_mk, logFields_mk] at h2
    simp only at hab
    subst hab
    simp [Logger.log, chosenLogFormat_mk, logFields_mk, ERROR_not_gated, h1, h2, print_log,
      LogLevel.toNat]
    cases tl <;> decide
  · intro T_Level l p_fmt p_args src t st hne
    obtain ⟨tl, tf, lf, co, ac, ab⟩ := l
    by_cases hgate : T_Level.toNat < tl.toNat
    · simp [Logger.log, hgate]
    · rcases h1 : vformat p_fmt p_args with e | msg
      · simp [Logger.log, hgate, h1]
      · rcases h2 : vformat (chosenLogFormat ⟨tl, tf, lf, co, ac, ab⟩)
            (logFields ⟨tl, tf, lf, co, ac, ab⟩ T_Level src t msg) with e2 | full
        all_goals simp only [chosenLogFormat_mk, logFields_mk] at h2
        · simp [Logger.log, chosenLogFormat_mk, logFields_mk, hgate, h1, h2]
        · simp [Logger.log, chosenLogFormat_mk, logFields_mk, hgate, h1, h2, hne,
            print_log_stdinTty, print_log_stdinLines]

/-- Witness for C3: an ERROR log with a non-interactive standard input
(the prompt cannot ask and answers `false`) aborts after writing the
line. -/
theorem C3_error_escalation_witness :
    Logger.log .ERROR ⟨.DEBUG, "%M:%S.%MS", "{5}", true, true, true⟩ "boom" []
      ⟨"t.cc", "void f()", 3⟩ ⟨13, 5, 9, 42, 2024, 1, 2⟩ ⟨"", "", false, []⟩
      = (.aborted, ⟨.DEBUG, "%M:%S.%MS", "{5}", true, true, true⟩,
         ⟨"boom", "", false, []⟩) :=
  C3_error_escalation.1 ⟨.DEBUG, "%M:%S.%MS", "{5}", true, true, true⟩ "boom" []
    ⟨"t.cc", "void f()", 3⟩ ⟨13, 5, 9, 42, 2024, 1, 2⟩ ⟨"", "", false, []⟩
    "boom" "boom" rfl rfl rfl rfl

/-- C4: `ask_continue` returns `false` immediately (reading nothing and
printing nothing) when standard input is not an interactive terminal;
otherwise, per line read after the prompt: it returns `false` at end of
input, `false` on an empty line, `true` when the first character is `y`
or `Y`, `false` when it is `n` or `N`, re-prompts (recursing on the
remaining input) on any other content, and resolves to `false` rather
than looping forever whenever no line ever answers affirmatively. -/
theorem C4_ask_continue_protocol :
    (∀ lines : List String, Logger.ask_continue false lines = (false, lines, "")) ∧
    Logger.ask_continue true [] = (false, [], promptMsg) ∧
    (∀ rest : List String, askContinueLoop ("" :: rest) = (false, rest, promptMsg)) ∧
    (∀ (line : String) (rest : List String), line ≠ "" →
      (line.front = 'y' ∨ line.front = 'Y') →
      askContinueLoop (line :: rest) = (true, rest, promptMsg)) ∧
    (∀ (line : String) (rest : List String), line ≠ "" →
      (line.front = 'n' ∨ line.front = 'N') →
      askContinueLoop (line :: rest) = (false, rest, promptMsg)) ∧
    (∀ (line : String) (rest : List String), line ≠ "" →
      Char.toLower line.front ≠ 'y' → Char.toLower line.front ≠ 'n' →
      (askContinueLoop (line :: rest)).1 = (askContinueLoop rest).1 ∧
      (askContinueLoop (line :: rest)).2.1 = (askContinueLoop rest).2.1) ∧
    (∀ lines : List String, (∀ l ∈ lines, Char.toLower l.front ≠ 'y') →
      (askContinueLoop lines).1 = false) := by
  refine ⟨fun lines => rfl, rfl, fun rest => rfl, ?_, ?_, ?_, ?_⟩
  · intro line rest h hf
    rcases hf with hf | hf <;>
      simp [askContinueLoop, h, hf]
  · intro line rest h hf
    rcases hf with hf | hf <;>
      simp [askContinueLoop, h, hf]
  · intro line rest h hy hn
    simp [askContinueLoop, h, hy, hn]
  · intro lines hno
    induction lines with
    | nil => rfl
    | cons line rest ih =>
      have hline : Char.toLower line.front ≠ 'y' := hno line (List.mem_cons_self line rest)
      have hrest : ∀ l ∈ rest, Char.toLower l.front ≠ 'y' :=
        fun l hl => hno l (List.mem_cons_of_mem line hl)
      by_cases hempty : line = ""
      · simp [askContinueLoop, hempty]
      · by_cases hn : Char.toLower line.front = 'n'
        · simp [askContinueLoop, hempty, hline, hn]
        · simp [askContinueLoop, hempty, hline, hn, ih hrest]

/-- Witness for C4: `"Yes"` answers true, `"no"` answers false, and an
input consisting only of `"maybe"` resolves to false. -/
theorem C4_ask_continue_protocol_witness :
    askContinueLoop ["Yes"] = (true, [], promptMsg) ∧
    askContinueLoop ["no"] = (false, [], promptMsg) ∧
    (askContinueLoop ["maybe"]).1 = false :=
  ⟨C4_ask_continue_protocol.2.2.2.1 "Yes" [] (by decide) (Or.inr (by decide)),
   C4_ask_continue_protocol.2.2.2.2.1 "no" [] (by decide) (Or.inl (by decide)),
   C4_ask_continue_protocol.2.2.2.2.2.2 ["maybe"] (by decide)⟩

/-- C5 counterexample: calling the set-time-format mutator with no
argument does not reset the time format to the constructor default
`"%M:%S.%MS"` — the declaration's default argument is the scrambled
string `"%MS.%S:%M"` (src/cci_logger.hh:48). -/
theorem C5_set_time_format_default_counterexample :
    ¬(((Logger.make .WARN).set_time_format_default).m_time_format = "%M:%S.%MS") := by
  decide

/-- C5 (amended): a newly constructed Logger uses the time format
`"%M:%S.%MS"`; invoking the set-time-format mutator with no argument sets
the time format to `"%MS.%S:%M"` (the header's default argument), not the
constructor default. -/
theorem C5_time_format_defaults :
    (∀ lvl : LogLevel, (Logger.make lvl).m_time_format = "%M:%S.%MS") ∧
    (∀ l : Logger, (l.set_time_format_default).m_time_format = "%MS.%S:%M") :=
  ⟨fun _ => rfl, fun _ => rfl⟩

/-- C6: function-name extraction strips everything through the first
space — keeping the whole text when no space exists — and then truncates
at the first `(`; in particular `"int32_t main()"` gives `"main"` and
`"void ns::Class::method(int, float)"` gives `"ns::Class::method"`. -/
theorem C6_extract_function_trims :
    extract_function "int32_t main()" = "main" ∧
    extract_function "void ns::Class::method(int, float)" = "ns::Class::method" ∧
    (∀ s : String, ' ' ∉ s.data →
      extract_function s = String.mk (s.data.takeWhile (fun c => c ≠ '('))) ∧
    (∀ a b : List Char, ' ' ∉ a →
      extract_function (String.mk (a ++ ' ' :: b))
        = String.mk (b.takeWhile (fun c => c ≠ '('))) := by
  refine ⟨by decide, by decide, ?_, ?_⟩
  · intro s h
    simp [extract_function, findIdx_space_none s.data h]
  · intro a b h
    simp [extract_function, findIdx_space_append a b h, drop_len_succ]

/-- Witness for C6: a signature with no space keeps all of its text up to
the parenthesis; a signature with a return type drops it. -/
theorem C6_extract_function_trims_witness :
    extract_function "main()" = String.mk ("main()".data.takeWhile (fun c => c ≠ '(')) ∧
    extract_function (String.mk (['i', 'n', 't'] ++ ' ' :: "f(x)".data))
      = String.mk ("f(x)".data.takeWhile (fun c => c ≠ '(')) :=
  ⟨C6_extract_function_trims.2.2.1 "main()" (by decide),
   C6_extract_function_trims.2.2.2 ['i', 'n', 't'] "f(x)".data (by decide)⟩

/-- C7: for a log call that passes the severity gate, a formatting
failure — in the nested user-message substitution or in the outer
final-line substitution, including a placeholder index outside 0–5
against the six fields — surfaces synchronously as the `formatError`
outcome (the modelled thrown `MessageFormatError`), is never swallowed
into a completed call, and nothing is printed. -/
theorem C7_format_error_propagation :
    (∀ (T_Level : LogLevel) (l : Logger) (p_fmt : String) (p_args : List String)
       (src : source_location) (t : TimeVal) (st : LogState) (e : MessageFormatError),
      ¬(T_Level.toNat < l.m_threshold_level.toNat) →
      vformat p_fmt p_args = .error e →
      Logger.log T_Level l p_fmt p_args src t st = (.formatError, l, st)) ∧
    (∀ (T_Level : LogLevel) (l : Logger) (p_fmt : String) (p_args : List String)
       (src : source_location) (t : TimeVal) (st : LogState) (msg : String)
       (e : MessageFormatError),
      ¬(T_Level.toNat < l.m_threshold_level.toNat) →
      vformat p_fmt p_args = .ok msg →
      vformat (chosenLogFormat l) (logFields l T_Level src t msg) = .error e →
      Logger.log T_Level l p_fmt p_args src t st = (.formatError, l, st)) ∧
    (∀ (a0 a1 a2 a3 a4 a5 : String) (c : Char),
      c.isDigit → 6 ≤ c.toNat - 48 →
      vformat (String.mk ['{', c, '}']) [a0, a1, a2, a3, a4, a5] = .error .badIndex) := by
  refine ⟨?_, ?_, ?_⟩
  · intro T_Level l p_fmt p_args src t st e hgate herr
    simp [Logger.log, hgate, herr]
  · intro T_Level l p_fmt p_args src t st msg e hgate hok herr
    simp [Logger.log, hgate, hok, herr]
  · intro a0 a1 a2 a3 a4 a5 c hd hge
    have h1 : c ≠ '{' := by
      intro e; subst e; simp [Char.isDigit] at hd
    have h2 : c ≠ '}' := by
      intro e; subst e; simp [Char.isDigit] at hd
    have hget : ([a0, a1, a2, a3, a4, a5] : List String)[c.toNat - 48]? = none := by
      apply List.getElem?_eq_none
      simpa using hge
    simp [vformat, vformatAux, h1, h2, hd, hget]

/-- Witness for C7: a bad index in the user message, a bad index in a
configured final-line template, and the placeholder `\x7b7\x7d` against
six fields, each end in `formatError` / `badIndex`. -/
theorem C7_format_error_propagation_witness :
    Logger.log .WARN ⟨.WARN, "%M:%S.%MS", "", true, true, true⟩ "{3}" []
      ⟨"a.cc", "int main()", 1⟩ ⟨13, 5, 9, 42, 2024, 1, 2⟩ ⟨"", "", false, []⟩
      = (.formatError, ⟨.WARN, "%M:%S.%MS", "", true, true, true⟩, ⟨"", "", false, []⟩) ∧
    Logger.log .WARN ⟨.WARN, "%M:%S.%MS", "{9}", true, true, true⟩ "m" []
      ⟨"a.cc", "int main()", 1⟩ ⟨13, 5, 9, 42, 2024, 1, 2⟩ ⟨"", "", false, []⟩
      = (.formatError, ⟨.WARN, "%M:%S.%MS", "{9}", true, true, true⟩, ⟨"", "", false, []⟩) ∧
    vformat (String.mk ['{', '7', '}']) ["a", "b", "c", "d", "e", "f"]
      = .error .badIndex :=
  ⟨C7_format_error_propagation.1 .WARN ⟨.WARN, "%M:%S.%MS", "", true, true, true⟩ "{3}" []
     ⟨"a.cc", "int main()", 1⟩ ⟨13, 5, 9, 42, 2024, 1, 2⟩ ⟨"", "", false, []⟩
     .badIndex (by decide) rfl,
   C7_format_error_propagation.2.1 .WARN ⟨.WARN, "%M:%S.%MS", "{9}", true, true, true⟩ "m" []
     ⟨"a.cc", "int main()", 1⟩ ⟨13, 5, 9, 42, 2024, 1, 2⟩ ⟨"", "", false, []⟩
     "m" .badIndex (by decide) rfl rfl,
   C7_format_error_propagation.2.2 "a" "b" "c" "d" "e" "f" '7' (by decide) (by decide)⟩

/-- C8: a log call that passes the severity gate and formats successfully
writes the finished line to the error stream when the severity is WARN or
ERROR (`severity ≥ WARN`; for ERROR the escalation prompt's bytes may
follow it there) and to the diagnostic stream when it is DEBUG or INFO
(`severity < WARN`), leaving the other stream untouched. -/
theorem C8_stream_selection :
    (∀ (T_Level : LogLevel) (l : Logger) (p_fmt : String) (p_args : List String)
       (src : source_location) (t : TimeVal) (st : LogState) (msg full : String),
      ¬(T_Level.toNat < l.m_threshold_level.toNat) →
      vformat p_fmt p_args = .ok msg →
      vformat (chosenLogFormat l) (logFields l T_Level src t msg) = .ok full →
      T_Level.toNat < LogLevel.WARN.toNat →
      Logger.log T_Level l p_fmt p_args src t st =
        (.completed, l, { st with clog := st.clog ++ full })) ∧
    (∀ (T_Level : LogLevel) (l : Logger) (p_fmt : String) (p_args : List String)
       (src : source_location) (t : TimeVal) (st : LogState) (msg full : String),
      ¬(T_Level.toNat < l.m_threshold_level.toNat) →
      vformat p_fmt p_args = .ok msg →
      vformat (chosenLogFormat l) (logFields l T_Level src t msg) = .ok full →
      LogLevel.WARN.toNat ≤ T_Level.toNat →
      (Logger.log T_Level l p_fmt p_args src t st).2.2.clog = st.clog ∧
      ∃ rest : String,
        (Logger.log T_Level l p_fmt p_args src t st).2.2.cerr = st.cerr ++ full ++ rest) := by
  refine ⟨?_, ?_⟩
  · intro T_Level l p_fmt p_args src t st msg full hgate h1 h2 hlow
    obtain ⟨tl, tf, lf, co, ac, ab⟩ := l
    simp only [chosenLogFormat_mk, logFields_mk] at h2
    cases T_Level <;> cases tl <;>
      first
        | exact absurd hlow (by decide)
        | (exfalso; revert hgate; simp [LogLevel.toNat]; done)
        | simp [Logger.log, chosenLogFormat_mk, logFields_mk, h1, h2, print_log,
            LogLevel.toNat]
  · intro T_Level l p_fmt p_args src t st msg full hgate h1 h2 hhigh
    obtain ⟨tl, tf, lf, co, ac, ab⟩ := l
    simp only [chosenLogFormat_mk, logFields_mk] at h2
    cases T_Level with
    | DEBUG => exact absurd hhigh (by decide)
    | INFO => exact absurd hhigh (by decide)
    | WARN =>
      cases tl <;>
        first
          | (exfalso; revert hgate; simp [LogLevel.toNat]; done)
          | (refine ⟨?_, "", ?_⟩ <;>
              simp [Logger.log, chosenLogFormat_mk, logFields_mk, h1, h2, print_log,
                LogLevel.toNat])
    | ERROR =>
      cases ab with
      | false =>
        cases tl <;> (refine ⟨?_, "", ?_⟩ <;>
          simp [Logger.log, chosenLogFormat_mk, logFields_mk, h1, h2, print_log,
            LogLevel.toNat])
      | true =>
        by_cases hask : (Logger.ask_continue st.stdinTty st.stdinLines).1 = true <;>
          cases tl <;>
            (refine ⟨?_, (Logger.ask_continue st.stdinTty st.stdinLines).2.2, ?_⟩ <;>
              simp [Logger.log, chosenLogFormat_mk, logFields_mk, h1, h2, print_log,
                LogLevel.toNat, hask, print_log_stdinTty, print_log_stdinLines,
                String.append_assoc])

/-- Witness for C8: the same logger writes an INFO line to the
diagnostic stream and a WARN line to the error stream. -/
theorem C8_stream_selection_witness :
    Logger.log .INFO ⟨.DEBUG, "%M:%S.%MS", "{5}", true, true, true⟩ "m" []
      ⟨"a.cc", "int main()", 1⟩ ⟨13, 5, 9, 42, 2024, 1, 2⟩ ⟨"", "", false, []⟩
      = (.completed, ⟨.DEBUG, "%M:%S.%MS", "{5}", true, true, true⟩,
         ⟨"", "m", false, []⟩) ∧
    ((Logger.log .WARN ⟨.DEBUG, "%M:%S.%MS", "{5}", true, true, true⟩ "m" []
        ⟨"a.cc", "int main()", 1⟩ ⟨13, 5, 9, 42, 2024, 1, 2⟩
        ⟨"", "", false, []⟩).2.2.clog = "" ∧
     ∃ rest : String,
       (Logger.log .WARN ⟨.DEBUG, "%M:%S.%MS", "{5}", true, true, true⟩ "m" []
          ⟨"a.cc", "int main()", 1⟩ ⟨13, 5, 9, 42, 2024, 1, 2⟩
          ⟨"", "", false, []⟩).2.2.cerr = "" ++ "m" ++ rest) :=
  ⟨C8_stream_selection.1 .INFO ⟨.DEBUG, "%M:%S.%MS", "{5}", true, true, true⟩ "m" []
     ⟨"a.cc", "int main()", 1⟩ ⟨13, 5, 9, 42, 2024, 1, 2⟩ ⟨"", "", false, []⟩
     "m" "m" (by decide) rfl rfl (by decide),
   C8_stream_selection.2 .WARN ⟨.DEBUG, "%M:%S.%MS", "{5}", true, true, true⟩ "m" []
     ⟨"a.cc", "int main()", 1⟩ ⟨13, 5, 9, 42, 2024, 1, 2⟩ ⟨"", "", false, []⟩
     "m" "m" (by decide) rfl rfl (by decide)⟩

/-- C9: the escalation decision never reads the ask-continue-on-error
flag: a log call on a logger whose `m_ask_continue` field is replaced by
an arbitrary value produces the identical outcome and the identical final
I/O state, at every severity and in every configuration. -/
theorem C9_ask_continue_flag_never_read (T_Level : LogLevel) (l : Logger) (b : Bool)
    (p_fmt : String) (p_args : List String) (src : source_location) (t : TimeVal)
    (st : LogState) :
    Logger.log T_Level { l with m_ask_continue := b } p_fmt p_args src t st =
      ((Logger.log T_Level l p_fmt p_args src t st).1,
       { l with m_ask_continue := b },
       (Logger.log T_Level l p_fmt p_args src t st).2.2) := by
  obtain ⟨tl, tf, lf, co, ac, ab⟩ := l
  by_cases hgate : T_Level.toNat < tl.toNat
  · simp [Logger.log, hgate]
  · rcases h1 : vformat p_fmt p_args with e | msg
    · simp [Logger.log, hgate, h1]
    · rcases h2 : vformat (chosenLogFormat ⟨tl, tf, lf, co, ac, ab⟩)
          (logFields ⟨tl, tf, lf, co, ac, ab⟩ T_Level src t msg) with e2 | full
      all_goals simp only [chosenLogFormat_mk, logFields_mk] at h2
      · simp [Logger.log, chosenLogFormat_mk, logFields_mk, hgate, h1, h2]
      · by_cases herr : T_Level = LogLevel.ERROR ∧ ab = true
        · obtain ⟨hT, hab⟩ := herr
          subst hT
          subst hab
          by_cases hask : (Logger.ask_continue st.stdinTty st.stdinLines).1 = true
          all_goals simp [Logger.log, chosenLogFormat_mk, logFields_mk, ERROR_not_gated,
            h1, h2, hask, print_log_stdinTty, print_log_stdinLines]
        · simp [Logger.log, chosenLogFormat_mk, logFields_mk, hgate, h1, h2, herr]
